import Mathlib

/-!
Verification of the orchestration layer of `overwitch` (`src/main-cli.c`)
against its natural-language specification.

The C file is shallowly embedded below.  Pure control flow is translated
directly; the external collaborators (device enumeration, `jclient_init`,
`print_devices`) are parameters of an `Env` record, since this layer only
observes their success or failure.  `pthread_create` / `pthread_join` are
modelled by recording, per instance, whether a thread was created and, for
the shutdown loop of `run_all`, the list of indices on which a join is
attempted.  Numeric parsing follows the LP64 target: `strtol` yields a
64-bit `long`, clamped to `LONG_MIN`/`LONG_MAX` with `errno` set on
overflow, and each option value then passes through the `(int)` cast —
two's-complement truncation to 32 bits — before being range-checked, so a
huge literal can wrap back into the documented range.  Entry `errno` is
taken to be 0 (the C code never resets it; a stale nonzero value could only
cause extra rejections, which no claim is about).
-/

namespace Overwitch

/-- Error codes of `ow_err_t` used by this layer.  `OW_OK` is 0; every other
constructor is a distinct nonzero code. -/
inductive ow_err_t
  | OW_OK
  | OW_GENERIC_ERROR
  | OW_USB_UNABLE_TO_GET_DEVICES
  | OW_DEVICE_NOT_FOUND
deriving DecidableEq, Repr

/-- The integer value carried by an `ow_err_t` (0 = success). -/
def ow_err_t.toInt : ow_err_t → Int
  | .OW_OK => 0
  | .OW_GENERIC_ERROR => 1
  | .OW_USB_UNABLE_TO_GET_DEVICES => 2
  | .OW_DEVICE_NOT_FOUND => 3

def EXIT_SUCCESS : Int := 0
def EXIT_FAILURE : Int := 1

def DEFAULT_QUALITY : Int := 2
def DEFAULT_BLOCKS : Int := 24
/-- With this value the default priority will be used (see the C macro). -/
def DEFAULT_PRIORITY : Int := -1

/-- `struct ow_usb_device`: the fields this layer reads. -/
structure ow_usb_device where
  name : List Char
  bus : Nat
  address : Nat
deriving DecidableEq, Repr

/-- The `struct jclient` fields assigned by `main-cli.c` before
`jclient_init` is called (`reporter.callback` and `end_notifier` are both
set to NULL and carry no information). -/
structure jclient where
  bus : Nat
  address : Nat
  blocks_per_transfer : Int
  quality : Int
  priority : Int
  reporter_period : Int
deriving DecidableEq, Repr

/-- Behaviour of the external collaborators for one run: the result of
`ow_get_devices`, which `jclient` configurations `jclient_init` rejects,
and the result of `print_devices` (`none` = success). -/
structure Env where
  get_devices : Except ow_err_t (List ow_usb_device)
  jclient_init_fails : jclient → Bool
  print_devices_err : Option ow_err_t

/-- The field assignments performed on `instance->jclient` by both
`run_single` and `run_all` (reporter period is the literal 2). -/
def configure_jclient (device : ow_usb_device)
    (blocks_per_transfer quality priority : Int) : jclient :=
  { bus := device.bus
    address := device.address
    blocks_per_transfer := blocks_per_transfer
    quality := quality
    priority := priority
    reporter_period := 2 }

/-- One entry of the global `instances` array: its configured `jclient` and
whether `pthread_create` was executed for it (`thread` holds a valid handle
only if it was). -/
structure overwitch_instance where
  jc : jclient
  thread_created : Bool
deriving DecidableEq, Repr

/-- Observable outcome of `run_single`. -/
structure RunSingleResult where
  err : ow_err_t
  thread_created : Bool
deriving DecidableEq, Repr

/-- Observable outcome of `run_all`: its return value, the instance array,
and the indices on which the shutdown loop calls `pthread_join`. -/
structure RunAllResult where
  err : ow_err_t
  instances : List overwitch_instance
  join_attempts : List Nat
deriving DecidableEq, Repr

/-- Modelled from the spec: `ow_get_usb_device_from_device_attrs` lives in
the overwitch library, not in `main-cli.c`.  Per the spec's Device Selector
contract: enumeration failures propagate; "by name" resolves the first
device whose name matches exactly, failing with `DeviceNotFound` otherwise;
"by index" resolves the Nth device in enumeration order, failing with
`DeviceNotFound` if the index is out of range or enumeration is empty. -/
def ow_get_usb_device_from_device_attrs (env : Env) (device_num : Int)
    (device_name : Option (List Char)) : Except ow_err_t ow_usb_device :=
  match env.get_devices with
  | .error e => .error e
  | .ok devices =>
    match device_name with
    | some name =>
      match devices.find? (fun d => d.name == name) with
      | some d => .ok d
      | none => .error .OW_DEVICE_NOT_FOUND
    | none =>
      if h : 0 ≤ device_num ∧ device_num.toNat < devices.length then
        .ok (devices.get ⟨device_num.toNat, h.2⟩)
      else
        .error .OW_DEVICE_NOT_FOUND

/-- `run_single` from `main-cli.c`: resolve the one selected device; on
resolution failure return `OW_GENERIC_ERROR`; configure the single
instance; if `jclient_init` fails, return `OW_GENERIC_ERROR` without
creating a thread; otherwise create the thread, join it and return
`OW_OK`. -/
def run_single (env : Env) (device_num : Int) (device_name : Option (List Char))
    (blocks_per_transfer quality priority : Int) : RunSingleResult :=
  match ow_get_usb_device_from_device_attrs env device_num device_name with
  | .error _ => { err := .OW_GENERIC_ERROR, thread_created := false }
  | .ok device =>
    let jc := configure_jclient device blocks_per_transfer quality priority
    if env.jclient_init_fails jc then
      { err := .OW_GENERIC_ERROR, thread_created := false }
    else
      { err := .OW_OK, thread_created := true }

/-- `run_all` from `main-cli.c`: enumerate; on failure return that error.
Otherwise, for each device in order, configure an instance and, only when
`jclient_init` succeeds, create its thread (`continue` skips creation on
failure).  The shutdown loop then calls `pthread_join` on every index
`0 .. instance_count - 1` unconditionally, and the function returns
`OW_OK`. -/
def run_all (env : Env) (blocks_per_transfer quality priority : Int) :
    RunAllResult :=
  match env.get_devices with
  | .error e => { err := e, instances := [], join_attempts := [] }
  | .ok devices =>
    let instances := devices.map fun device =>
      let jc := configure_jclient device blocks_per_transfer quality priority
      { jc := jc, thread_created := ! env.jclient_init_fails jc }
    { err := .OW_OK
      instances := instances
      join_attempts := List.range instances.length }

/-- The signals handled by `signal_handler`. -/
inductive csignal
  | SIGHUP | SIGINT | SIGTERM | SIGUSR1 | other
deriving DecidableEq, Repr

/-- A request issued by the signal handler to instance `i`. -/
inductive control_request
  | jclient_exit (i : Nat)
  | report_status (i : Nat)
deriving DecidableEq, Repr

/-- `signal_handler` from `main-cli.c`, as the sequence of requests one
delivery issues when `instance_count` entries are live: termination-class
signals send `jclient_exit` to each instance in order; `SIGUSR1` sends a
status-report request to each instance; anything else does nothing. -/
def signal_handler (instance_count : Nat) (signo : csignal) :
    List control_request :=
  if signo = csignal.SIGHUP ∨ signo = csignal.SIGINT ∨ signo = csignal.SIGTERM
  then (List.range instance_count).map control_request.jclient_exit
  else if signo = csignal.SIGUSR1 then
    (List.range instance_count).map control_request.report_status
  else []

def LONG_MIN : Int := -(2 ^ 63)
def LONG_MAX : Int := 2 ^ 63 - 1

/-- Two's-complement truncation of a 64-bit `long` value to a 32-bit
`int`: the effect of the `(int)` cast that `main` applies to every
`strtol` result before range-checking it. -/
def int_of_long (v : Int) : Int := (v + 2 ^ 31) % 2 ^ 32 - 2 ^ 31

/-- Result of the strtol parse of one option value: the returned `long`,
whether `errno` was set (`ERANGE` on `long` overflow), whether no
conversion was performed (`endstr == optarg`), and the characters from
`endstr` on (`*endstr != 0` iff this is nonempty). -/
structure strtol_result where
  value : Int
  errno_set : Bool
  endstr_eq_optarg : Bool
  rest : List Char
deriving DecidableEq, Repr

def isDecDigit (c : Char) : Bool := '0' ≤ c && c ≤ '9'

def decValue (ds : List Char) : Nat :=
  ds.foldl (fun acc c => 10 * acc + (c.toNat - '0'.toNat)) 0

/-- Base-10 `strtol` on the LP64 target: skip leading whitespace (the six
`isspace` characters), accept an optional sign, then consume decimal
digits.  If no digit is consumed, no conversion is performed and `endstr`
stays at `optarg`.  A value outside the `long` range is clamped to
`LONG_MIN`/`LONG_MAX` with `errno` set to `ERANGE`. -/
def strtol (optarg : List Char) : strtol_result :=
  let afterSpace := optarg.dropWhile fun c =>
    c == ' ' || c == '\t' || c == '\n' || c == '\x0d' || c == '\x0c' ||
      c == '\x0b'
  let signAndRest : Bool × List Char :=
    match afterSpace with
    | '-' :: rest => (true, rest)
    | '+' :: rest => (false, rest)
    | _ => (false, afterSpace)
  let digits := signAndRest.2.takeWhile isDecDigit
  let rest := signAndRest.2.dropWhile isDecDigit
  if digits.isEmpty then
    { value := 0, errno_set := false, endstr_eq_optarg := true,
      rest := optarg }
  else
    let signedVal : Int :=
      if signAndRest.1 then -(decValue digits : Int) else (decValue digits : Int)
    if signedVal < LONG_MIN then
      { value := LONG_MIN, errno_set := true, endstr_eq_optarg := false,
        rest := rest }
    else if signedVal > LONG_MAX then
      { value := LONG_MAX, errno_set := true, endstr_eq_optarg := false,
        rest := rest }
    else
      { value := signedVal, errno_set := false, endstr_eq_optarg := false,
        rest := rest }

/-- The rejection condition of `case 'q'`: `errno`, no conversion,
trailing garbage, or an `(int)`-cast value outside `[0..4]`. -/
def quality_arg_invalid (optarg : List Char) : Bool :=
  let r := strtol optarg
  let quality := int_of_long r.value
  r.errno_set || r.endstr_eq_optarg || !r.rest.isEmpty ||
    quality > 4 || quality < 0

/-- `case 'q'`: the resulting quality and whether the warning was printed. -/
def validate_quality (optarg : List Char) : Int × Bool :=
  if quality_arg_invalid optarg then (DEFAULT_QUALITY, true)
  else (int_of_long (strtol optarg).value, false)

/-- The rejection condition of `case 'b'`: `errno`, no conversion,
trailing garbage, or an `(int)`-cast value outside `[2..32]`. -/
def blocks_arg_invalid (optarg : List Char) : Bool :=
  let r := strtol optarg
  let blocks_per_transfer := int_of_long r.value
  r.errno_set || r.endstr_eq_optarg || !r.rest.isEmpty ||
    blocks_per_transfer < 2 || blocks_per_transfer > 32

/-- `case 'b'`: the resulting block count and whether the warning was
printed. -/
def validate_blocks (optarg : List Char) : Int × Bool :=
  if blocks_arg_invalid optarg then (DEFAULT_BLOCKS, true)
  else (int_of_long (strtol optarg).value, false)

/-- The rejection condition of `case 'p'`: `errno`, no conversion,
trailing garbage, or an `(int)`-cast value outside `[0..99]`. -/
def priority_arg_invalid (optarg : List Char) : Bool :=
  let r := strtol optarg
  let priority := int_of_long r.value
  r.errno_set || r.endstr_eq_optarg || !r.rest.isEmpty ||
    priority < 0 || priority > 99

/-- `case 'p'`: the resulting priority (the -1 sentinel on rejection) and
whether the warning was printed. -/
def validate_priority (optarg : List Char) : Int × Bool :=
  if priority_arg_invalid optarg then (DEFAULT_PRIORITY, true)
  else (int_of_long (strtol optarg).value, false)

/-- One option occurrence as classified by `getopt_long` with option string
`n:d:q:b:p:lvh`: the value-carrying options keep their `optarg`;
`unrecognized` is getopt's `?` result. -/
inductive cli_arg
  | n (optarg : List Char)
  | d (optarg : List Char)
  | q (optarg : List Char)
  | b (optarg : List Char)
  | p (optarg : List Char)
  | l | v | h
  | unrecognized
deriving DecidableEq, Repr

def cli_arg.isN : cli_arg → Bool | .n _ => true | _ => false
def cli_arg.isD : cli_arg → Bool | .d _ => true | _ => false
def cli_arg.isB : cli_arg → Bool | .b _ => true | _ => false
def cli_arg.isP : cli_arg → Bool | .p _ => true | _ => false
def cli_arg.isL : cli_arg → Bool | .l => true | _ => false
def cli_arg.isUnrec : cli_arg → Bool | .unrecognized => true | _ => false

/-- The local state of `main` mutated by the `getopt_long` loop. -/
structure getopt_state where
  device_num : Int
  device_name : Option (List Char)
  quality : Int
  blocks_per_transfer : Int
  priority : Int
  nflg : Nat
  dflg : Nat
  bflg : Nat
  pflg : Nat
  lflg : Nat
  vflg : Nat
  errflg : Nat
  warnings : Nat
deriving DecidableEq, Repr

/-- The initial values `main` declares before its option loop. -/
def initial_state : getopt_state :=
  { device_num := -1
    device_name := none
    quality := DEFAULT_QUALITY
    blocks_per_transfer := DEFAULT_BLOCKS
    priority := DEFAULT_PRIORITY
    nflg := 0, dflg := 0, bflg := 0, pflg := 0
    lflg := 0, vflg := 0, errflg := 0, warnings := 0 }

/-- One iteration of the option loop for a non-help option.  `case 'n'`
parses without any validation; `q`, `b`, `p` run their validators (the
`warnings` counter records emitted warnings); `b`, `p`, `n`, `d`, `l`, `v`
bump their flag counters; note there is no counter for `q`.  The `h` case
is never reached here: `getopt_loop` exits on it. -/
def getopt_step (st : getopt_state) : cli_arg → getopt_state
  | .n optarg =>
    { st with device_num := int_of_long (strtol optarg).value
              nflg := st.nflg + 1 }
  | .d optarg =>
    { st with device_name := some optarg, dflg := st.dflg + 1 }
  | .q optarg =>
    { st with quality := (validate_quality optarg).fst
              warnings := st.warnings +
                (if (validate_quality optarg).snd then 1 else 0) }
  | .b optarg =>
    { st with blocks_per_transfer := (validate_blocks optarg).fst
              bflg := st.bflg + 1
              warnings := st.warnings +
                (if (validate_blocks optarg).snd then 1 else 0) }
  | .p optarg =>
    { st with priority := (validate_priority optarg).fst
              pflg := st.pflg + 1
              warnings := st.warnings +
                (if (validate_priority optarg).snd then 1 else 0) }
  | .l => { st with lflg := st.lflg + 1 }
  | .v => { st with vflg := st.vflg + 1 }
  | .h => st
  | .unrecognized => { st with errflg := st.errflg + 1 }

/-- The `getopt_long` loop of `main`.  `case 'h'` prints usage and calls
`exit (EXIT_SUCCESS)` immediately, so the loop either finishes with the
accumulated state or exits the process there. -/
def getopt_loop : getopt_state → List cli_arg → Except Unit getopt_state
  | st, [] => .ok st
  | st, a :: rest =>
    if a = cli_arg.h then .error ()
    else getopt_loop (getopt_step st a) rest

/-- Everything `main` can do after the option loop, as observed by this
layer. -/
inductive main_result
  | help_exit
  | usage_error
  | list_ok
  | list_error (e : ow_err_t)
  | undetermined_blocks
  | undetermined_priority
  | ran_all (r : RunAllResult)
  | ran_single (r : RunSingleResult)
  | device_not_provided
deriving DecidableEq, Repr

/-- `main` from `main-cli.c` after signal-handler installation: run the
option loop; on any usage error print help and exit with failure; if the
list flag was given, print the devices and exit (success or failure
according to `print_devices`); a repeated block-count or priority flag is a
fatal "Undetermined" error; then dispatch on the number of
device-selection flags: none means `run_all`, exactly one means
`run_single`, more is the fatal "Device not provided properly" error. -/
def cli_main (env : Env) (args : List cli_arg) : main_result :=
  match getopt_loop initial_state args with
  | .error () => .help_exit
  | .ok st =>
    if st.errflg > 0 then .usage_error
    else if st.lflg > 0 then
      match env.print_devices_err with
      | some e => .list_error e
      | none => .list_ok
    else if st.bflg > 1 then .undetermined_blocks
    else if st.pflg > 1 then .undetermined_priority
    else if st.nflg + st.dflg = 0 then
      .ran_all (run_all env st.blocks_per_transfer st.quality st.priority)
    else if st.nflg + st.dflg = 1 then
      .ran_single (run_single env st.device_num st.device_name
        st.blocks_per_transfer st.quality st.priority)
    else .device_not_provided

/-- The process exit status produced by each `main_result`. -/
def main_result.exit_code : main_result → Int
  | .help_exit => EXIT_SUCCESS
  | .usage_error => EXIT_FAILURE
  | .list_ok => EXIT_SUCCESS
  | .list_error _ => EXIT_FAILURE
  | .undetermined_blocks => EXIT_FAILURE
  | .undetermined_priority => EXIT_FAILURE
  | .ran_all r => r.err.toInt
  | .ran_single r => r.err.toInt
  | .device_not_provided => EXIT_FAILURE

/-- How many worker threads `pthread_create` started in each outcome. -/
def main_result.threads_started : main_result → Nat
  | .ran_all r => (r.instances.filter (fun i => i.thread_created)).length
  | .ran_single r => if r.thread_created then 1 else 0
  | _ => 0

/-! Concrete worlds used to exercise the theorems on closed inputs. -/

def devA : ow_usb_device := { name := ['O', 'n', 'e'], bus := 1, address := 1 }

def devB : ow_usb_device := { name := ['T', 'w', 'o'], bus := 1, address := 2 }

/-- A healthy two-device bus on which the device at address 1 (`devA`)
fails `jclient_init` and the other initializes fine. -/
def envTwo : Env :=
  { get_devices := .ok [devA, devB]
    jclient_init_fails := fun jc => jc.address == 1
    print_devices_err := none }

/-- A world where the device bus cannot be queried at all. -/
def envBadBus : Env :=
  { get_devices := .error .OW_USB_UNABLE_TO_GET_DEVICES
    jclient_init_fails := fun _ => false
    print_devices_err := some .OW_USB_UNABLE_TO_GET_DEVICES }

/-! Helper lemmas about the option loop. -/

theorem getopt_loop_eq_foldl (args : List cli_arg) (st : getopt_state)
    (hh : cli_arg.h ∉ args) :
    getopt_loop st args = Except.ok (List.foldl getopt_step st args) := by
  induction args generalizing st with
  | nil => rfl
  | cons a rest ih =>
    have ha : ¬ a = cli_arg.h := fun hc => hh (hc ▸ List.mem_cons_self a rest)
    show (if a = cli_arg.h then Except.error ()
      else getopt_loop (getopt_step st a) rest) = _
    rw [if_neg ha, List.foldl_cons]
    exact ih (getopt_step st a) fun hm => hh (List.mem_cons_of_mem a hm)

theorem foldl_nflg (args : List cli_arg) (st : getopt_state) :
    (List.foldl getopt_step st args).nflg = st.nflg + args.countP cli_arg.isN := by
  induction args generalizing st with
  | nil => simp
  | cons a rest ih =>
    rw [List.foldl_cons, ih, List.countP_cons]
    cases a <;> simp [getopt_step, cli_arg.isN] <;> omega

theorem foldl_dflg (args : List cli_arg) (st : getopt_state) :
    (List.foldl getopt_step st args).dflg = st.dflg + args.countP cli_arg.isD := by
  induction args generalizing st with
  | nil => simp
  | cons a rest ih =>
    rw [List.foldl_cons, ih, List.countP_cons]
    cases a <;> simp [getopt_step, cli_arg.isD] <;> omega

theorem foldl_bflg (args : List cli_arg) (st : getopt_state) :
    (List.foldl getopt_step st args).bflg = st.bflg + args.countP cli_arg.isB := by
  induction args generalizing st with
  | nil => simp
  | cons a rest ih =>
    rw [List.foldl_cons, ih, List.countP_cons]
    cases a <;> simp [getopt_step, cli_arg.isB] <;> omega

theorem foldl_pflg (args : List cli_arg) (st : getopt_state) :
    (List.foldl getopt_step st args).pflg = st.pflg + args.countP cli_arg.isP := by
  induction args generalizing st with
  | nil => simp
  | cons a rest ih =>
    rw [List.foldl_cons, ih, List.countP_cons]
    cases a <;> simp [getopt_step, cli_arg.isP] <;> omega

theorem foldl_lflg (args : List cli_arg) (st : getopt_state) :
    (List.foldl getopt_step st args).lflg = st.lflg + args.countP cli_arg.isL := by
  induction args generalizing st with
  | nil => simp
  | cons a rest ih =>
    rw [List.foldl_cons, ih, List.countP_cons]
    cases a <;> simp [getopt_step, cli_arg.isL] <;> omega

theorem foldl_errflg (args : List cli_arg) (st : getopt_state) :
    (List.foldl getopt_step st args).errflg =
      st.errflg + args.countP cli_arg.isUnrec := by
  induction args generalizing st with
  | nil => simp
  | cons a rest ih =>
    rw [List.foldl_cons, ih, List.countP_cons]
    cases a <;> simp [getopt_step, cli_arg.isUnrec] <;> omega

theorem countP_isL_eq_zero (args : List cli_arg) (hl : cli_arg.l ∉ args) :
    args.countP cli_arg.isL = 0 := by
  rw [List.countP_eq_zero]
  intro a ha hpa
  cases a <;> simp [cli_arg.isL] at hpa
  exact hl ha

theorem countP_isUnrec_eq_zero (args : List cli_arg)
    (hu : cli_arg.unrecognized ∉ args) :
    args.countP cli_arg.isUnrec = 0 := by
  rw [List.countP_eq_zero]
  intro a ha hpa
  cases a <;> simp [cli_arg.isUnrec] at hpa
  exact hu ha

/-- `cli_main` once the option loop is known to terminate in state `st`. -/
theorem cli_main_ok (env : Env) (args : List cli_arg) (st : getopt_state)
    (h : getopt_loop initial_state args = .ok st) :
    cli_main env args =
      (if st.errflg > 0 then main_result.usage_error
       else if st.lflg > 0 then
         match env.print_devices_err with
         | some e => main_result.list_error e
         | none => main_result.list_ok
       else if st.bflg > 1 then main_result.undetermined_blocks
       else if st.pflg > 1 then main_result.undetermined_priority
       else if st.nflg + st.dflg = 0 then
         main_result.ran_all
           (run_all env st.blocks_per_transfer st.quality st.priority)
       else if st.nflg + st.dflg = 1 then
         main_result.ran_single
           (run_single env st.device_num st.device_name
             st.blocks_per_transfer st.quality st.priority)
       else main_result.device_not_provided) := by
  unfold cli_main
  rw [h]

/-- When help was not requested and the list flag is absent, every run in
which blocks or priority was given twice, or at least two device-selection
flags were given, ends in one of the fatal pre-startup branches: failure
exit, zero threads, and an outcome independent of the device world. -/
theorem cli_main_aborts (env : Env) (args : List cli_arg)
    (hh : cli_arg.h ∉ args) (hl : cli_arg.l ∉ args)
    (hbad : 1 < (List.foldl getopt_step initial_state args).bflg ∨
            1 < (List.foldl getopt_step initial_state args).pflg ∨
            2 ≤ (List.foldl getopt_step initial_state args).nflg +
                (List.foldl getopt_step initial_state args).dflg) :
    (cli_main env args).exit_code = EXIT_FAILURE ∧
    (cli_main env args).threads_started = 0 ∧
    ∀ e : Env, cli_main e args = cli_main env args := by
  have hlf : ¬ (List.foldl getopt_step initial_state args).lflg > 0 := by
    rw [foldl_lflg, countP_isL_eq_zero args hl]
    decide
  have hall : (∀ e : Env, cli_main e args = main_result.usage_error) ∨
      (∀ e : Env, cli_main e args = main_result.undetermined_blocks) ∨
      (∀ e : Env, cli_main e args = main_result.undetermined_priority) ∨
      (∀ e : Env, cli_main e args = main_result.device_not_provided) := by
    by_cases he : (List.foldl getopt_step initial_state args).errflg > 0
    · exact Or.inl fun e => by
        rw [cli_main_ok e args _ (getopt_loop_eq_foldl args initial_state hh),
          if_pos he]
    · by_cases hb : (List.foldl getopt_step initial_state args).bflg > 1
      · refine Or.inr (Or.inl fun e => ?_)
        rw [cli_main_ok e args _ (getopt_loop_eq_foldl args initial_state hh),
          if_neg he, if_neg hlf, if_pos hb]
      · by_cases hp : (List.foldl getopt_step initial_state args).pflg > 1
        · refine Or.inr (Or.inr (Or.inl fun e => ?_))
          rw [cli_main_ok e args _ (getopt_loop_eq_foldl args initial_state hh),
            if_neg he, if_neg hlf, if_neg hb, if_pos hp]
        · have hnd : 2 ≤ (List.foldl getopt_step initial_state args).nflg +
              (List.foldl getopt_step initial_state args).dflg := by
            rcases hbad with h | h | h
            · omega
            · omega
            · exact h
          refine Or.inr (Or.inr (Or.inr fun e => ?_))
          rw [cli_main_ok e args _ (getopt_loop_eq_foldl args initial_state hh),
            if_neg he, if_neg hlf, if_neg hb, if_neg hp,
            if_neg (by omega), if_neg (by omega)]
  rcases hall with h | h | h | h <;>
    exact ⟨by rw [h env]; rfl, by rw [h env]; rfl,
      fun e => (h e).trans (h env).symm⟩

/-- The list-devices branch on a healthy bus, reached whenever no help flag
and no unrecognized option is present. -/
theorem cli_main_list_ok_branch (env : Env) (args : List cli_arg)
    (hh : cli_arg.h ∉ args) (hu : cli_arg.unrecognized ∉ args)
    (hl : cli_arg.l ∈ args) (hpd : env.print_devices_err = none) :
    cli_main env args = main_result.list_ok := by
  have he : ¬ (List.foldl getopt_step initial_state args).errflg > 0 := by
    rw [foldl_errflg, countP_isUnrec_eq_zero args hu]
    decide
  have hlf : (List.foldl getopt_step initial_state args).lflg > 0 := by
    rw [foldl_lflg]
    have hpos : 0 < args.countP cli_arg.isL :=
      List.countP_pos_iff.mpr ⟨cli_arg.l, hl, rfl⟩
    omega
  rw [cli_main_ok env args _ (getopt_loop_eq_foldl args initial_state hh),
    if_neg he, if_pos hlf, hpd]

/-- The list-devices branch on a failing bus. -/
theorem cli_main_list_error_branch (env : Env) (args : List cli_arg)
    (hh : cli_arg.h ∉ args) (hu : cli_arg.unrecognized ∉ args)
    (hl : cli_arg.l ∈ args) (e0 : ow_err_t)
    (hpd : env.print_devices_err = some e0) :
    cli_main env args = main_result.list_error e0 := by
  have he : ¬ (List.foldl getopt_step initial_state args).errflg > 0 := by
    rw [foldl_errflg, countP_isUnrec_eq_zero args hu]
    decide
  have hlf : (List.foldl getopt_step initial_state args).lflg > 0 := by
    rw [foldl_lflg]
    have hpos : 0 < args.countP cli_arg.isL :=
      List.countP_pos_iff.mpr ⟨cli_arg.l, hl, rfl⟩
    omega
  rw [cli_main_ok env args _ (getopt_loop_eq_foldl args initial_state hh),
    if_neg he, if_pos hlf, hpd]

/-! The claims. -/

/-- C1: in fleet mode (no device-selection flag, i.e. the `run_all` path),
for every enumerated device whose worker initialization fails, that device
contributes no thread, every other device's worker still starts, and the
run returns `OW_OK` regardless of how many devices failed to initialize,
including when zero devices are present. -/
theorem run_all_fleet_skips_failures_returns_ok (env : Env)
    (b q p : Int) (devices : List ow_usb_device)
    (henum : env.get_devices = .ok devices) :
    (run_all env b q p).err = ow_err_t.OW_OK ∧
    (run_all env b q p).instances.length = devices.length ∧
    ∀ i : Nat,
      ((run_all env b q p).instances.get? i).map overwitch_instance.thread_created
        = (devices.get? i).map
            (fun d => ! env.jclient_init_fails (configure_jclient d b q p)) := by
  have hr : run_all env b q p =
      { err := ow_err_t.OW_OK
        instances := devices.map fun device =>
          { jc := configure_jclient device b q p
            thread_created :=
              ! env.jclient_init_fails (configure_jclient device b q p) }
        join_attempts := List.range
          (devices.map fun device =>
            ({ jc := configure_jclient device b q p
               thread_created :=
                 ! env.jclient_init_fails (configure_jclient device b q p) }
              : overwitch_instance)).length } := by
    unfold run_all
    rw [henum]
  rw [hr]
  refine ⟨rfl, by simp, fun i => ?_⟩
  rw [List.get?_map]
  cases devices.get? i <;> rfl

/-- C1 witness: on `envTwo` the device at address 1 fails to initialize and
is skipped, the other device's worker starts, and the run reports
`OW_OK`. -/
theorem run_all_fleet_witness :
    (run_all envTwo 24 2 (-1)).err = ow_err_t.OW_OK ∧
    ((run_all envTwo 24 2 (-1)).instances.get? 0).map
      overwitch_instance.thread_created = some false ∧
    ((run_all envTwo 24 2 (-1)).instances.get? 1).map
      overwitch_instance.thread_created = some true := by
  have h := run_all_fleet_skips_failures_returns_ok envTwo 24 2 (-1)
    [devA, devB] rfl
  exact ⟨h.1, (h.2.2 0).trans rfl, (h.2.2 1).trans rfl⟩

/-- C2 counterexample: the value 4294967296 lies outside the documented
closed range [0..4] of the resampling quality, yet the `(int)` cast of the
`strtol` result wraps it to the in-range 0 before the range check, so the
quality validator accepts it silently — no warning, no default — and the
run proceeds with quality 0. -/
theorem wrapped_out_of_range_value_accepted :
    (strtol ['4', '2', '9', '4', '9', '6', '7', '2', '9', '6']).value =
      4294967296 ∧
    (4 : Int) < 4294967296 ∧
    validate_quality ['4', '2', '9', '4', '9', '6', '7', '2', '9', '6'] =
      (0, false) ∧
    cli_main envTwo
        [cli_arg.q ['4', '2', '9', '4', '9', '6', '7', '2', '9', '6']] =
      main_result.ran_all (run_all envTwo 24 0 (-1)) :=
  ⟨rfl, by decide, rfl, rfl⟩

/-- C2 (amended): any quality, block-count or priority value that fails
its parse (`errno` from `long` overflow, no conversion, or trailing
garbage) or whose value after the `(int)` cast of the `strtol` result lies
outside its documented range is replaced by the documented default
(quality 2, blocks 24, priority the -1 sentinel) with a warning, and
startup proceeds: with only such options given, `main` still dispatches to
`run_all` with the defaults.  (A value whose cast wraps back into the
range, such as 4294967296, is accepted silently with the wrapped value.) -/
theorem validators_substitute_defaults_and_continue
    (sq sb sp : List Char)
    (hq : quality_arg_invalid sq = true)
    (hb : blocks_arg_invalid sb = true)
    (hp : priority_arg_invalid sp = true) :
    validate_quality sq = (DEFAULT_QUALITY, true) ∧
    validate_blocks sb = (DEFAULT_BLOCKS, true) ∧
    validate_priority sp = (DEFAULT_PRIORITY, true) ∧
    ∀ env : Env,
      cli_main env [cli_arg.q sq, cli_arg.b sb, cli_arg.p sp] =
        main_result.ran_all
          (run_all env DEFAULT_BLOCKS DEFAULT_QUALITY DEFAULT_PRIORITY) := by
  have h1 : validate_quality sq = (DEFAULT_QUALITY, true) := by
    unfold validate_quality
    rw [if_pos hq]
  have h2 : validate_blocks sb = (DEFAULT_BLOCKS, true) := by
    unfold validate_blocks
    rw [if_pos hb]
  have h3 : validate_priority sp = (DEFAULT_PRIORITY, true) := by
    unfold validate_priority
    rw [if_pos hp]
  refine ⟨h1, h2, h3, fun env => ?_⟩
  have hmem : cli_arg.h ∉ [cli_arg.q sq, cli_arg.b sb, cli_arg.p sp] := by
    simp
  rw [cli_main_ok env _ _ (getopt_loop_eq_foldl _ initial_state hmem)]
  simp [List.foldl, getopt_step, h1, h2, h3, initial_state]

/-- C2 witness: quality 9, blocks "ab" and priority 100 are all rejected,
the documented defaults are substituted with a warning, and the run still
proceeds to the fleet path. -/
theorem validators_substitute_defaults_witness :
    validate_quality ['9'] = (DEFAULT_QUALITY, true) ∧
    validate_blocks ['a', 'b'] = (DEFAULT_BLOCKS, true) ∧
    validate_priority ['1', '0', '0'] = (DEFAULT_PRIORITY, true) ∧
    cli_main envTwo
        [cli_arg.q ['9'], cli_arg.b ['a', 'b'], cli_arg.p ['1', '0', '0']] =
      main_result.ran_all
        (run_all envTwo DEFAULT_BLOCKS DEFAULT_QUALITY DEFAULT_PRIORITY) := by
  have h := validators_substitute_defaults_and_continue
    ['9'] ['a', 'b'] ['1', '0', '0'] (by decide) (by decide) (by decide)
  exact ⟨h.1, h.2.1, h.2.2.1, h.2.2.2 envTwo⟩

/-- C5: in single-device mode, when worker initialization fails,
`run_single` returns a nonzero status and creates no thread. -/
theorem run_single_init_failure_no_thread (env : Env) (device_num : Int)
    (device_name : Option (List Char)) (b q p : Int) (device : ow_usb_device)
    (hres : ow_get_usb_device_from_device_attrs env device_num device_name =
      .ok device)
    (hfail : env.jclient_init_fails (configure_jclient device b q p) = true) :
    (run_single env device_num device_name b q p).err.toInt ≠ 0 ∧
    (run_single env device_num device_name b q p).thread_created = false := by
  have hrun : run_single env device_num device_name b q p =
      { err := .OW_GENERIC_ERROR, thread_created := false } := by
    unfold run_single
    rw [hres]
    simp [hfail]
  exact ⟨by rw [hrun]; decide, by rw [hrun]⟩

/-- C5 witness: selecting the device named "One" on `envTwo`, whose
initialization fails, yields a nonzero status and no thread. -/
theorem run_single_init_failure_witness :
    (run_single envTwo (-1) (some ['O', 'n', 'e']) 24 2 (-1)).err.toInt ≠ 0 ∧
    (run_single envTwo (-1) (some ['O', 'n', 'e']) 24 2 (-1)).thread_created =
      false :=
  run_single_init_failure_no_thread envTwo (-1) (some ['O', 'n', 'e'])
    24 2 (-1) devA rfl (by decide)

/-- C7: one delivery of a termination-class signal (hangup, interrupt or
terminate) while `N` instances are live issues exactly one `jclient_exit`
request to each of the `N` entries, and nothing else. -/
theorem signal_handler_stops_each_instance_once (N : Nat) (signo : csignal)
    (hs : signo = csignal.SIGHUP ∨ signo = csignal.SIGINT ∨
      signo = csignal.SIGTERM) :
    (∀ i, i < N →
      (signal_handler N signo).count (control_request.jclient_exit i) = 1) ∧
    (signal_handler N signo).length = N ∧
    (∀ r, r ∈ signal_handler N signo →
      ∃ i, i < N ∧ r = control_request.jclient_exit i) := by
  have hinj : Function.Injective control_request.jclient_exit := by
    intro a b hab
    injection hab
  have hh : signal_handler N signo =
      (List.range N).map control_request.jclient_exit := by
    unfold signal_handler
    rw [if_pos hs]
  rw [hh]
  refine ⟨fun i hi => ?_, by simp, fun r hr => ?_⟩
  · rw [List.count_map_of_injective _ _ hinj]
    exact List.count_eq_one_of_mem (List.nodup_range N) (List.mem_range.mpr hi)
  · obtain ⟨i, hiR, rfl⟩ := List.mem_map.mp hr
    exact ⟨i, List.mem_range.mp hiR, rfl⟩

/-- C7 witness: an interrupt delivered with three live instances stops
instance 0 exactly once and issues exactly three requests. -/
theorem signal_handler_witness :
    (signal_handler 3 csignal.SIGINT).count (control_request.jclient_exit 0)
      = 1 ∧
    (signal_handler 3 csignal.SIGINT).length = 3 :=
  ⟨(signal_handler_stops_each_instance_once 3 csignal.SIGINT
      (Or.inr (Or.inl rfl))).1 0 (by decide),
   (signal_handler_stops_each_instance_once 3 csignal.SIGINT
      (Or.inr (Or.inl rfl))).2.1⟩

/-- C8: in single-device mode selecting by index, an out-of-range index
(including against an empty enumeration) makes the selector fail with
`DeviceNotFound`, and `run_single` returns a nonzero status without
creating a thread. -/
theorem run_single_index_out_of_range_not_found (env : Env)
    (devices : List ow_usb_device) (device_num b q p : Int)
    (henum : env.get_devices = .ok devices)
    (hout : device_num < 0 ∨ devices.length ≤ device_num.toNat) :
    ow_get_usb_device_from_device_attrs env device_num none =
      .error ow_err_t.OW_DEVICE_NOT_FOUND ∧
    (run_single env device_num none b q p).err.toInt ≠ 0 ∧
    (run_single env device_num none b q p).thread_created = false := by
  have hres : ow_get_usb_device_from_device_attrs env device_num none =
      .error ow_err_t.OW_DEVICE_NOT_FOUND := by
    unfold ow_get_usb_device_from_device_attrs
    rw [henum]
    show (if h : 0 ≤ device_num ∧ device_num.toNat < devices.length then
        Except.ok (devices.get ⟨device_num.toNat, h.2⟩)
      else Except.error ow_err_t.OW_DEVICE_NOT_FOUND) = _
    rw [dif_neg]
    rintro ⟨h0, hlt⟩
    rcases hout with h | h
    · omega
    · omega
  have hrun : run_single env device_num none b q p =
      { err := .OW_GENERIC_ERROR, thread_created := false } := by
    unfold run_single
    rw [hres]
  exact ⟨hres, by rw [hrun]; decide, by rw [hrun]⟩

/-- C8 witness: index 5 against the two-device bus of `envTwo` (scenario B)
fails with `DeviceNotFound`, nonzero status, no thread. -/
theorem run_single_out_of_range_witness :
    ow_get_usb_device_from_device_attrs envTwo 5 none =
      .error ow_err_t.OW_DEVICE_NOT_FOUND ∧
    (run_single envTwo 5 none 24 2 (-1)).err.toInt ≠ 0 ∧
    (run_single envTwo 5 none 24 2 (-1)).thread_created = false :=
  run_single_index_out_of_range_not_found envTwo [devA, devB] 5 24 2 (-1)
    rfl (Or.inr (by decide))

/-- C9: the shutdown loop of `run_all` attempts a `pthread_join` on every
index of the instance array unconditionally, including entries whose
initialization failed and for which `pthread_create` was skipped, so those
joins target a thread handle that was never initialized. -/
theorem run_all_join_visits_every_entry (env : Env) (b q p : Int) :
    (run_all env b q p).join_attempts =
      List.range (run_all env b q p).instances.length ∧
    (∀ i inst, (run_all env b q p).instances.get? i = some inst →
      i ∈ (run_all env b q p).join_attempts) ∧
    (∀ i inst, (run_all env b q p).instances.get? i = some inst →
      inst.thread_created = false →
      i ∈ (run_all env b q p).join_attempts) := by
  cases h : env.get_devices with
  | error e =>
    have hr : run_all env b q p =
        { err := e, instances := [], join_attempts := [] } := by
      unfold run_all
      rw [h]
    rw [hr]
    refine ⟨rfl, fun i inst hi => ?_, fun i inst hi _ => ?_⟩ <;> simp at hi
  | ok devices =>
    have hr : run_all env b q p =
        { err := ow_err_t.OW_OK
          instances := devices.map fun device =>
            { jc := configure_jclient device b q p
              thread_created :=
                ! env.jclient_init_fails (configure_jclient device b q p) }
          join_attempts := List.range
            (devices.map fun device =>
              ({ jc := configure_jclient device b q p
                 thread_created :=
                   ! env.jclient_init_fails (configure_jclient device b q p) }
                : overwitch_instance)).length } := by
      unfold run_all
      rw [h]
    rw [hr]
    refine ⟨rfl, fun i inst hi => ?_, fun i inst hi _ => ?_⟩ <;>
      exact List.mem_range.mpr (List.get?_eq_some.mp hi).1

/-- C9 witness: on `envTwo` the entry at index 0 never got a thread, yet
index 0 is still among the join attempts. -/
theorem run_all_join_witness :
    ((run_all envTwo 24 2 (-1)).instances.get? 0).map
      overwitch_instance.thread_created = some false ∧
    0 ∈ (run_all envTwo 24 2 (-1)).join_attempts := by
  refine ⟨rfl, ?_⟩
  exact (run_all_join_visits_every_entry envTwo 24 2 (-1)).2.2 0
    { jc := configure_jclient devA 24 2 (-1), thread_created := false }
    (by rfl) (by rfl)

/-- C3 counterexample: the resampling-quality flag given twice is not
rejected — there is no duplicate counter for it — so the run proceeds to
the fleet path (the last value, 1, winning) and exits with status 0,
contradicting the claimed hard validation error with nonzero exit. -/
theorem duplicate_quality_not_rejected :
    cli_main envTwo [cli_arg.q ['3'], cli_arg.q ['1']] =
      main_result.ran_all (run_all envTwo 24 1 (-1)) ∧
    (cli_main envTwo [cli_arg.q ['3'], cli_arg.q ['1']]).exit_code = 0 :=
  ⟨rfl, rfl⟩

/-- C3 (amended): for every command line without the help and list-devices
flags in which the transfer-block-count or scheduling-priority flag is
given more than once, validation fails as a hard error: nonzero exit, no
worker started, and an outcome independent of the device world (a repeated
resampling-quality flag, by contrast, is accepted with the last value
winning). -/
theorem duplicate_blocks_or_priority_aborts (env : Env) (args : List cli_arg)
    (hh : cli_arg.h ∉ args) (hl : cli_arg.l ∉ args)
    (hdup : 2 ≤ args.countP cli_arg.isB ∨ 2 ≤ args.countP cli_arg.isP) :
    (cli_main env args).exit_code = EXIT_FAILURE ∧
    (cli_main env args).threads_started = 0 ∧
    ∀ e : Env, cli_main e args = cli_main env args := by
  apply cli_main_aborts env args hh hl
  rcases hdup with h | h
  · left
    rw [foldl_bflg]
    have h0 : initial_state.bflg = 0 := rfl
    omega
  · right
    left
    rw [foldl_pflg]
    have h0 : initial_state.pflg = 0 := rfl
    omega

/-- C3 witness: the block-count flag given twice aborts with nonzero exit
and no worker. -/
theorem duplicate_blocks_witness :
    (cli_main envTwo [cli_arg.b ['8'], cli_arg.b ['8']]).exit_code =
      EXIT_FAILURE ∧
    (cli_main envTwo [cli_arg.b ['8'], cli_arg.b ['8']]).threads_started
      = 0 :=
  ⟨(duplicate_blocks_or_priority_aborts envTwo
      [cli_arg.b ['8'], cli_arg.b ['8']] (by decide) (by decide)
      (Or.inl (by decide))).1,
   (duplicate_blocks_or_priority_aborts envTwo
      [cli_arg.b ['8'], cli_arg.b ['8']] (by decide) (by decide)
      (Or.inl (by decide))).2.1⟩

/-- C4 counterexample: a command line selecting a device both by index and
by name but also carrying the list-devices flag reaches the list branch
first and exits with status 0 on a healthy bus — validation never fails. -/
theorem both_selectors_with_list_exits_zero :
    cli_main envTwo [cli_arg.n ['0'], cli_arg.d ['T', 'w', 'o'], cli_arg.l] =
      main_result.list_ok ∧
    (cli_main envTwo
      [cli_arg.n ['0'], cli_arg.d ['T', 'w', 'o'], cli_arg.l]).exit_code = 0 :=
  ⟨rfl, rfl⟩

/-- C4 (amended): for every command line without the help and list-devices
flags that selects a device both by numeric index and by name, the run
fails with a nonzero exit status, starts no worker thread, and its outcome
is independent of the device world (no device is touched). -/
theorem both_selectors_abort (env : Env) (args : List cli_arg)
    (hh : cli_arg.h ∉ args) (hl : cli_arg.l ∉ args)
    (hn : 1 ≤ args.countP cli_arg.isN) (hd : 1 ≤ args.countP cli_arg.isD) :
    (cli_main env args).exit_code = EXIT_FAILURE ∧
    (cli_main env args).threads_started = 0 ∧
    ∀ e : Env, cli_main e args = cli_main env args := by
  apply cli_main_aborts env args hh hl
  right
  right
  rw [foldl_nflg, foldl_dflg]
  have h0 : initial_state.nflg = 0 := rfl
  have h1 : initial_state.dflg = 0 := rfl
  omega

/-- C4 witness: index and name selection together abort with nonzero exit
and no worker. -/
theorem both_selectors_abort_witness :
    (cli_main envTwo [cli_arg.n ['1'], cli_arg.d ['x']]).exit_code =
      EXIT_FAILURE ∧
    (cli_main envTwo [cli_arg.n ['1'], cli_arg.d ['x']]).threads_started
      = 0 :=
  ⟨(both_selectors_abort envTwo [cli_arg.n ['1'], cli_arg.d ['x']]
      (by decide) (by decide) (by decide) (by decide)).1,
   (both_selectors_abort envTwo [cli_arg.n ['1'], cli_arg.d ['x']]
      (by decide) (by decide) (by decide) (by decide)).2.1⟩

/-- C6 counterexample: an invocation containing the list-devices flag
together with an unrecognized option exits via the usage error with status
1 on a healthy bus, instead of the claimed device listing with status 0. -/
theorem list_devices_preempted_by_usage_error :
    envTwo.print_devices_err = none ∧
    cli_main envTwo [cli_arg.unrecognized, cli_arg.l] =
      main_result.usage_error ∧
    (cli_main envTwo [cli_arg.unrecognized, cli_arg.l]).exit_code ≠ 0 := by
  refine ⟨rfl, rfl, by decide⟩

/-- C6 (amended): every invocation containing the list-devices flag and no
help flag or unrecognized option short-circuits: on a healthy bus it lists
the devices and exits with status 0, on enumeration failure it exits with
a nonzero status, and in both cases zero workers are started. -/
theorem list_devices_short_circuit (env : Env) (args : List cli_arg)
    (hh : cli_arg.h ∉ args) (hu : cli_arg.unrecognized ∉ args)
    (hl : cli_arg.l ∈ args) :
    (cli_main env args).threads_started = 0 ∧
    (env.print_devices_err = none →
      cli_main env args = main_result.list_ok ∧
      (cli_main env args).exit_code = 0) ∧
    (∀ e0 : ow_err_t, env.print_devices_err = some e0 →
      cli_main env args = main_result.list_error e0 ∧
      (cli_main env args).exit_code ≠ 0) := by
  cases hpd : env.print_devices_err with
  | none =>
    have hm := cli_main_list_ok_branch env args hh hu hl hpd
    refine ⟨by rw [hm]; rfl, fun _ => ⟨hm, by rw [hm]; rfl⟩, ?_⟩
    intro e0 he0
    cases he0
  | some e1 =>
    have hm := cli_main_list_error_branch env args hh hu hl e1 hpd
    refine ⟨by rw [hm]; rfl, fun hc => ?_, fun e0 he0 => ?_⟩
    · cases hc
    · cases he0
      exact ⟨hm, by rw [hm]; simp [main_result.exit_code, EXIT_FAILURE]⟩

/-- C6 witness: a plain list-devices request on a healthy bus lists and
exits 0 with zero workers; on a failing bus it exits nonzero. -/
theorem list_devices_short_circuit_witness :
    cli_main envTwo [cli_arg.l] = main_result.list_ok ∧
    (cli_main envTwo [cli_arg.l]).threads_started = 0 ∧
    cli_main envBadBus [cli_arg.l] =
      main_result.list_error ow_err_t.OW_USB_UNABLE_TO_GET_DEVICES :=
  ⟨((list_devices_short_circuit envTwo [cli_arg.l] (by decide) (by decide)
      (by decide)).2.1 rfl).1,
   (list_devices_short_circuit envTwo [cli_arg.l] (by decide) (by decide)
      (by decide)).1,
   ((list_devices_short_circuit envBadBus [cli_arg.l] (by decide) (by decide)
      (by decide)).2.2 ow_err_t.OW_USB_UNABLE_TO_GET_DEVICES rfl).1⟩

/-- C10 counterexample: with an unrecognized option also present, a
command line containing the list-devices flag and a repeated block-count
flag does not list devices and exit 0 — the usage-error check runs even
earlier and exits with status 1. -/
theorem list_before_dup_checks_preempted :
    cli_main envTwo
        [cli_arg.unrecognized, cli_arg.l, cli_arg.b ['2'], cli_arg.b ['2']] =
      main_result.usage_error ∧
    (cli_main envTwo
        [cli_arg.unrecognized, cli_arg.l, cli_arg.b ['2'],
          cli_arg.b ['2']]).exit_code ≠ 0 := by
  refine ⟨rfl, by decide⟩

/-- C10 (amended): the list-devices branch is evaluated before the
duplicate-option checks, so every command line containing the list-devices
flag together with a repeated block-count or priority flag — and no help
flag or unrecognized option — still lists devices and exits with status 0
on a healthy bus instead of aborting with the duplicate-option error. -/
theorem list_devices_precedes_duplicate_checks (env : Env)
    (args : List cli_arg)
    (hh : cli_arg.h ∉ args) (hu : cli_arg.unrecognized ∉ args)
    (hl : cli_arg.l ∈ args)
    (hdup : 2 ≤ args.countP cli_arg.isB ∨ 2 ≤ args.countP cli_arg.isP)
    (hbus : env.print_devices_err = none) :
    cli_main env args = main_result.list_ok ∧
    (cli_main env args).exit_code = 0 ∧
    (cli_main env args).threads_started = 0 := by
  have hm := cli_main_list_ok_branch env args hh hu hl hbus
  exact ⟨hm, by rw [hm]; rfl, by rw [hm]; rfl⟩

/-- C10 witness: list-devices plus a twice-given block count lists and
exits 0 on the healthy `envTwo` bus. -/
theorem list_devices_precedes_duplicate_checks_witness :
    cli_main envTwo [cli_arg.l, cli_arg.b ['2'], cli_arg.b ['2']] =
      main_result.list_ok ∧
    (cli_main envTwo
      [cli_arg.l, cli_arg.b ['2'], cli_arg.b ['2']]).exit_code = 0 :=
  ⟨(list_devices_precedes_duplicate_checks envTwo
      [cli_arg.l, cli_arg.b ['2'], cli_arg.b ['2']] (by decide) (by decide)
      (by decide) (Or.inl (by decide)) rfl).1,
   (list_devices_precedes_duplicate_checks envTwo
      [cli_arg.l, cli_arg.b ['2'], cli_arg.b ['2']] (by decide) (by decide)
      (by decide) (Or.inl (by decide)) rfl).2.1⟩

end Overwitch
